import Mathlib

/-
Verification of the AI content-standardization pipeline
(backend/app/services/ai_pipeline.py, services/audit_service.py,
routers/responses.py, models.py) against its specification.

The Python code is shallowly embedded: the processing record is a Lean
structure, database commits become explicit state passing, timestamps are
abstract Nat clock values, Python floats are modelled as rationals, and
every fallible operation returns Except. External collaborators (the
modality extractors, the remote text-generation call, the audit store)
are modelled as oracle outcomes supplied through an AttemptWorld value,
since the spec scopes them out as external tools.
-/

/-- Mirrors class AIProcessingStatus (ai_pipeline.py lines 35-40). -/
inductive AIProcessingStatus
  | PENDING
  | PROCESSING
  | COMPLETED
  | FAILED
  | RETRYING
deriving DecidableEq

/-- Mirrors class AIInputType (ai_pipeline.py lines 42-46). -/
inductive AIInputType
  | TEXT
  | IMAGE
  | AUDIO
  | DOCUMENT
deriving DecidableEq

/-- Document MIME strings recognized by _determine_input_type (line 154). -/
def documentMimeTypes : List String :=
  ["application/pdf",
   "application/vnd.openxmlformats-officedocument.wordprocessingml.document",
   "application/msword"]

/-- Image filename extensions (ai_pipeline.py line 162). -/
def imageExts : List String := ["jpg", "jpeg", "png", "gif", "bmp", "tiff"]

/-- Audio filename extensions (ai_pipeline.py line 164). -/
def audioExts : List String := ["mp3", "wav", "ogg", "flac", "m4a"]

/-- Document filename extensions (ai_pipeline.py line 166). -/
def docExts : List String := ["pdf", "docx", "doc"]

/-- Text filename extensions (ai_pipeline.py line 168). -/
def textExts : List String := ["txt", "md", "rtf"]

/-- Python str.startswith: the declared prefix is a prefix of the string.
Implemented over the character lists so that it evaluates by reduction. -/
def pyStartswith (s p : String) : Bool :=
  p.data.isPrefixOf s.data

/-- Python str.split(sep) for a single separator character: always
returns at least one piece, keeps empty pieces, so "".split(".") gives
one empty piece and "a.".split(".") gives ["a", ""]. -/
def splitChar (c : Char) : List Char → List (List Char)
  | [] => [[]]
  | x :: xs =>
    let r := splitChar c xs
    if x == c then [] :: r
    else
      match r with
      | [] => [[x]]
      | y :: ys => (x :: y) :: ys

/-- Mirrors ext = filename.lower().split(".")[-1] (ai_pipeline.py line
161): lowercase the filename, split on dots, take the last piece. -/
def extOf (filename : String) : String :=
  String.mk ((splitChar '.' (filename.data.map Char.toLower)).getLastD [])

/-- Body of _determine_input_type (ai_pipeline.py lines 147-172) for a
declared media type that is present (a Python str). Declared-type checks
run first, then the filename-extension fallback (guarded by Python
truthiness, so an empty filename is skipped), then the Text default. -/
def determineInputTypeStr (contentType : String) (filename : Option String) :
    AIInputType :=
  if pyStartswith contentType "image/" then AIInputType.IMAGE
  else if pyStartswith contentType "audio/" then AIInputType.AUDIO
  else if documentMimeTypes.contains contentType then AIInputType.DOCUMENT
  else if pyStartswith contentType "text/" then AIInputType.TEXT
  else
    match filename with
    | some fn =>
      if fn ≠ "" then
        let ext := extOf fn
        if imageExts.contains ext then AIInputType.IMAGE
        else if audioExts.contains ext then AIInputType.AUDIO
        else if docExts.contains ext then AIInputType.DOCUMENT
        else if textExts.contains ext then AIInputType.TEXT
        else AIInputType.TEXT
      else AIInputType.TEXT
    | none => AIInputType.TEXT

/-- Error raised by CPython when content_type is None: the first statement
of _determine_input_type evaluates content_type.startswith, and None has
no attribute startswith. -/
def noneStartswithError : String :=
  "AttributeError: NoneType object has no attribute startswith"

/-- Call semantics of _determine_input_type. The router passes
file.content_type (routers/responses.py line 247), which is None when the
uploaded part carries no Content-Type header; in that case the function
raises AttributeError before reaching the filename fallback. -/
def determineInputType (contentType : Option String) (filename : Option String) :
    Except String AIInputType :=
  match contentType with
  | none => Except.error noneStartswithError
  | some ct => Except.ok (determineInputTypeStr ct filename)

/-- True when the declared type or the filename extension matches one of
the known groups of _determine_input_type; when false, the function is in
its final default-to-Text clause. -/
def matchesKnownGroup (contentType : String) (filename : Option String) : Bool :=
  pyStartswith contentType "image/" || pyStartswith contentType "audio/" ||
  documentMimeTypes.contains contentType || pyStartswith contentType "text/" ||
  (match filename with
   | some fn =>
     fn ≠ "" && (imageExts.contains (extOf fn) || audioExts.contains (extOf fn) ||
       docExts.contains (extOf fn) || textExts.contains (extOf fn))
   | none => false)

/-- Mirrors _calculate_confidence_score (ai_pipeline.py lines 383-399),
with Python floats modelled as rationals: base 0.8; subtract 0.2 when
len(standardized)/max(len(original),1) is below 0.5 or above 2.0;
subtract 0.1 when tokens_used exceeds 1500; clamp into [0,1]. -/
def calculateConfidenceScore (originalText standardizedText : String)
    (tokensUsed : Nat) : ℚ :=
  let confidence : ℚ := 4/5
  let lr : ℚ := (standardizedText.length : ℚ) / ((max originalText.length 1 : ℕ) : ℚ)
  let confidence := if lr < 1/2 ∨ 2 < lr then confidence - 1/5 else confidence
  let confidence := if 1500 < tokensUsed then confidence - 1/10 else confidence
  max 0 (min 1 confidence)

/-- Written from the words of spec section 4.3: base 0.8, a 0.2 penalty
when the output/input length ratio falls outside [0.5, 2.0], a 0.1
penalty when the token count exceeds 1500, clamped into [0,1]. -/
def confidenceSpec (originalText standardizedText : String)
    (tokensUsed : Nat) : ℚ :=
  let r0 : ℚ := (standardizedText.length : ℚ) / ((max originalText.length 1 : ℕ) : ℚ)
  let ratioPenalty : ℚ := if r0 < 1/2 ∨ 2 < r0 then 1/5 else 0
  let tokenPenalty : ℚ := if 1500 < tokensUsed then 1/10 else 0
  max 0 (min 1 (4/5 - ratioPenalty - tokenPenalty))

/-- One entry of the processing_steps JSON list. Beyond the step name and
timestamp, only the detail fields the spec claims mention are kept: the
retry count and error text of an error_occurred entry, the input type of
the started_processing entry, and the confidence of a completion entry. -/
structure Step where
  step : String
  timestamp : Nat
  retry_count : Option Nat
  error : Option String
  input_type : Option AIInputType
  confidence_score : Option ℚ
deriving DecidableEq

/-- Mirrors the AIProcessing table row (models.py lines 328-356);
original_content is kept as its three JSON fields. Timestamps are
abstract Nat clock values, confidence a rational. -/
structure AIProcessing where
  id : Nat
  response_id : Nat
  processing_status : AIProcessingStatus
  input_type : AIInputType
  original_filename : Option String
  original_content_type : String
  original_size : Nat
  processed_content : Option String
  standardized_text : Option String
  confidence_score : Option ℚ
  processing_steps : List Step
  error_message : Option String
  retry_count : Nat
  max_retries : Nat
  started_at : Option Nat
  completed_at : Option Nat
deriving DecidableEq

/-- Record creation in process_response_content (ai_pipeline.py lines
73-83): status Pending, classified input type, empty step history,
retry_count 0, max_retries 3 (models.py line 348), and started_at set to
the creation time (line 79). pid stands for the database-assigned id. -/
def createRecord (pid rid : Nat) (contentSize : Nat) (contentType : String)
    (filename : Option String) (now : Nat) : AIProcessing :=
  { id := pid
    response_id := rid
    processing_status := AIProcessingStatus.PENDING
    input_type := determineInputTypeStr contentType filename
    original_filename := filename
    original_content_type := contentType
    original_size := contentSize
    processed_content := none
    standardized_text := none
    confidence_score := none
    processing_steps := []
    error_message := none
    retry_count := 0
    max_retries := 3
    started_at := some now
    completed_at := none }

/-- Step appended on the Pending to Processing transition (lines 88-92). -/
def startedStep (now : Nat) (it : AIInputType) : Step :=
  ⟨"started_processing", now, none, none, some it, none⟩

/-- Step appended by _handle_processing_error (lines 406-411). -/
def errorOccurredStep (now rc : Nat) (e : String) : Step :=
  ⟨"error_occurred", now, some rc, some e, none, none⟩

/-- Step appended by retry_failed_processing (lines 496-499). -/
def manualRetryStep (now : Nat) : Step :=
  ⟨"manual_retry_initiated", now, none, none, none, none⟩

/-- Step appended when _standardize_text_openai starts (lines 319-323). -/
def stdStartedStep (now : Nat) : Step :=
  ⟨"openai_standardization_started", now, none, none, none, none⟩

/-- Step appended when _standardize_text_openai succeeds (lines 363-369). -/
def stdCompletedStep (now : Nat) (c : ℚ) : Step :=
  ⟨"openai_standardization_completed", now, none, none, none, some c⟩

/-- Step appended when _standardize_text_openai fails (lines 375-379). -/
def stdErrorStep (now : Nat) (e : String) : Step :=
  ⟨"openai_standardization_error", now, none, some e, none, none⟩

/-- Step appended on successful completion (lines 118-122). -/
def completedStep (now : Nat) (c : ℚ) : Step :=
  ⟨"completed_successfully", now, none, none, none, some c⟩

/-- Python str.strip() with no argument: drop leading and trailing
whitespace. Implemented over the character list so that it evaluates by
reduction. -/
def pyStrip (s : String) : String :=
  String.mk (((s.data.dropWhile Char.isWhitespace).reverse.dropWhile
    Char.isWhitespace).reverse)

/-- Result dictionary returned by process_response_content: the completed
dict of lines 135-141, the retrying dict of lines 426-431, or the failed
dict of lines 446-451. -/
inductive RunResult
  | completed (processing_id : Nat) (standardized_text : String) (confidence : ℚ)
  | retrying (processing_id retry_count : Nat) (error : String)
  | failed (processing_id : Nat) (error : String) (retry_count : Nat)
deriving DecidableEq

/-- Error message produced when audit emission fails. In this repository
every emission fails with exactly this error: AuditService.log_ai_processing
(audit_service.py lines 211-236) awaits self.create_audit_log, and class
AuditService defines no method of that name. -/
def auditEmitFailureMsg : String :=
  "AttributeError: AuditService object has no attribute create_audit_log"

/-- One audit emission through AuditService.log_ai_processing, modelled as
an oracle outcome: ok true is a successful write to the external audit
store, ok false is an emission that raises. Neither the pipeline
(ai_pipeline.py lines 127-133, 418-424, 438-444) nor log_ai_processing
itself guards these calls with any try/except. -/
def auditEmit (ok : Bool) : Except String Unit :=
  if ok then Except.ok () else Except.error auditEmitFailureMsg

/-- Oracle outcomes of the external collaborators for one attempt:
the modality extractor result, the remote text-generation result (message
content and total token count), and the outcomes of the first and second
audit emission of the attempt. -/
structure AttemptWorld where
  extractResult : Except String String
  openaiResult : Except String (String × Nat)
  auditOk1 : Bool
  auditOk2 : Bool

/-- Mirrors _handle_processing_error (ai_pipeline.py lines 401-451):
increment retry_count, store error_message, append the error_occurred
step with the new count; if the new count is below max_retries set status
Retrying, else set status Failed and completed_at; the record mutations
are committed before the audit emission, whose failure therefore raises
out of the handler without undoing them. -/
def handleProcessingError (p : AIProcessing) (errMsg : String) (now : Nat)
    (auditOk : Bool) : AIProcessing × Except String RunResult :=
  let rc := p.retry_count + 1
  let p1 := { p with retry_count := rc, error_message := some errMsg,
                     processing_steps := p.processing_steps ++ [errorOccurredStep now rc errMsg] }
  if rc < p1.max_retries then
    let p2 := { p1 with processing_status := AIProcessingStatus.RETRYING }
    match auditEmit auditOk with
    | Except.ok _ => (p2, Except.ok (RunResult.retrying p2.id rc errMsg))
    | Except.error e => (p2, Except.error e)
  else
    let p2 := { p1 with processing_status := AIProcessingStatus.FAILED,
                        completed_at := some now }
    match auditEmit auditOk with
    | Except.ok _ => (p2, Except.ok (RunResult.failed p2.id errMsg rc))
    | Except.error e => (p2, Except.error e)

/-- The try block of process_response_content (ai_pipeline.py lines
85-145) run on an existing record: move to Processing and append the
started step, run the extractor, run the standardizer, and on success
store results, mark Completed, and emit the completion audit event. Any
exception inside the block, including one raised by that audit emission,
is caught by the except clause and routed to _handle_processing_error.
The two inner step appends of _standardize_text_openai are included; the
modality extractors are external tools whose outcome is the world value
(the Text extractor, bytes.decode, appends no steps of its own). -/
def runAttempt (w : AttemptWorld) (p : AIProcessing) (now : Nat) :
    AIProcessing × Except String RunResult :=
  let p1 := { p with processing_status := AIProcessingStatus.PROCESSING,
                     processing_steps := p.processing_steps ++ [startedStep now p.input_type] }
  match w.extractResult with
  | Except.error e => handleProcessingError p1 e now w.auditOk1
  | Except.ok extracted =>
    let p2 := { p1 with processing_steps := p1.processing_steps ++ [stdStartedStep now] }
    match w.openaiResult with
    | Except.error e =>
      let p3 := { p2 with processing_steps := p2.processing_steps ++ [stdErrorStep now e] }
      handleProcessingError p3 ("OpenAI standardization failed: " ++ e) now w.auditOk1
    | Except.ok pr =>
      let standardized := pyStrip pr.1
      let conf := calculateConfidenceScore extracted standardized pr.2
      let p3 := { p2 with processing_steps := p2.processing_steps ++ [stdCompletedStep now conf] }
      let p4 := { p3 with processed_content := some extracted,
                          standardized_text := some standardized,
                          confidence_score := some conf,
                          processing_status := AIProcessingStatus.COMPLETED,
                          completed_at := some now,
                          processing_steps := p3.processing_steps ++ [completedStep now conf] }
      match auditEmit w.auditOk1 with
      | Except.ok _ => (p4, Except.ok (RunResult.completed p4.id standardized conf))
      | Except.error e => handleProcessingError p4 e now w.auditOk2

/-- Full process_response_content run: create the record (lines 73-83)
then execute the try block. The final record state and the returned value
(ok: the result dict; error: the exception escaping to the scheduling
layer) are both reported. -/
def processResponseContent (w : AttemptWorld) (pid rid : Nat)
    (contentSize : Nat) (contentType : String) (filename : Option String)
    (now : Nat) : AIProcessing × Except String RunResult :=
  runAttempt w (createRecord pid rid contentSize contentType filename now) now

/-- Modelled from the spec: the source contains no code that re-invokes an
attempt on a Retrying record (process_response_content is called exactly
once per trigger, from the background task of routers/responses.py), so
the retry driver is taken from spec section 4.5, Retrying loops back to
Processing: run one attempt, and while the resulting status is Retrying
run another, with fresh external-world outcomes and clock per attempt.
Returns the final record and the number of attempts made; fuel bounds the
recursion. -/
def runUntilTerminal (worlds : Nat → AttemptWorld) (p : AIProcessing) (i : Nat) :
    Nat → AIProcessing × Nat
  | 0 => (p, 0)
  | fuel + 1 =>
    let p1 := (runAttempt (worlds i) p i).1
    if p1.processing_status = AIProcessingStatus.RETRYING then
      let r := runUntilTerminal worlds p1 (i + 1) fuel
      (r.1, r.2 + 1)
    else (p1, 1)

/-- Lowercased status string as returned by the router,
existing.processing_status.value.lower() (routers/responses.py line 241). -/
def statusLower (s : AIProcessingStatus) : String :=
  match s with
  | AIProcessingStatus.PENDING => "pending"
  | AIProcessingStatus.PROCESSING => "processing"
  | AIProcessingStatus.COMPLETED => "completed"
  | AIProcessingStatus.FAILED => "failed"
  | AIProcessingStatus.RETRYING => "retrying"

/-- Statuses the dedup query of trigger_ai_processing filters on
(routers/responses.py lines 230-237). -/
def isActiveStatus (s : AIProcessingStatus) : Bool :=
  match s with
  | AIProcessingStatus.PENDING => true
  | AIProcessingStatus.PROCESSING => true
  | AIProcessingStatus.COMPLETED => true
  | AIProcessingStatus.FAILED => false
  | AIProcessingStatus.RETRYING => false

/-- The dedup query: first stored record for the submission whose status
is Pending, Processing or Completed (routers/responses.py lines 230-237). -/
def findExistingActive (records : List AIProcessing) (rid : Nat) :
    Option AIProcessing :=
  records.find? (fun p => p.response_id == rid && isActiveStatus p.processing_status)

/-- Response body of the trigger endpoint (ProcessAIResponse model). -/
structure ProcessAIResponse where
  processing_id : Nat
  status : String
  message : String
deriving DecidableEq

/-- Synchronous outcome of POST /responses/.../process-ai: the returned
body, the record store as the endpoint leaves it, and whether a
background processing task was scheduled. -/
structure TriggerOutcome where
  response : ProcessAIResponse
  records : List AIProcessing
  scheduled : Bool

/-- Mirrors trigger_ai_processing (routers/responses.py lines 220-284):
if a record with status Pending, Processing or Completed already exists
for the submission and force_reprocess is not set, return that record
with its id and lowercased status and schedule nothing; otherwise
schedule a background run (which will create its record later) and
return processing_id 0 with status initiated. The synchronous call
itself never creates a record. -/
def triggerAIProcessing (records : List AIProcessing) (rid : Nat)
    (force : Bool) : TriggerOutcome :=
  match findExistingActive records rid with
  | some existing =>
    if force then
      ⟨⟨0, "initiated", "AI processing started"⟩, records, true⟩
    else
      ⟨⟨existing.id, statusLower existing.processing_status,
        "Processing already exists"⟩, records, false⟩
  | none => ⟨⟨0, "initiated", "AI processing started"⟩, records, true⟩

/-- Row of the participant_responses table as far as the manual-retry
path inspects it. models.py lines 297-322 define text_content, file_name,
file_content, file_mime_type, file_size and more, but no column or
attribute named file_data. -/
structure ResponseRow where
  id : Nat
deriving DecidableEq

/-- Mirrors hasattr(response, "file_data") (ai_pipeline.py line 508).
ParticipantResponse defines no attribute file_data (its binary column is
file_content), so the check is False for every row. -/
def hasattrFileData (_row : ResponseRow) : Bool := false

/-- Store visible to retry_failed_processing: processing records and
participant response rows. -/
structure PipelineDB where
  records : List AIProcessing
  responses : List ResponseRow

/-- Errors raised by retry_failed_processing: ValueError "Processing
record not found" (line 485), ValueError "Can only retry failed or
retrying processing jobs" (line 488), ValueError "Original response data
not found" (line 509). -/
inductive RetryError
  | notFound
  | invalidState
  | sourceUnavailable
deriving DecidableEq

/-- Success dictionary of retry_failed_processing (lines 512-516). -/
structure RetryOk where
  processing_id : Nat
  status : String
deriving DecidableEq

/-- The reset block of retry_failed_processing (lines 490-499):
retry_count 0, status Pending, error_message cleared, started_at and
completed_at cleared, manual_retry_initiated step appended. -/
def resetForRetry (now : Nat) (p : AIProcessing) : AIProcessing :=
  { p with retry_count := 0
           processing_status := AIProcessingStatus.PENDING
           error_message := none
           started_at := none
           completed_at := none
           processing_steps := p.processing_steps ++ [manualRetryStep now] }

/-- Mirrors retry_failed_processing (ai_pipeline.py lines 477-516): find
the record or raise not-found; raise invalid-state unless the status is
Failed or Retrying; reset the record and commit; only then look up the
owning response and require hasattr(response, "file_data"), raising the
source-unavailable ValueError when that fails, with the reset already
committed. -/
def retryFailedProcessing (db : PipelineDB) (pid : Nat) (now : Nat) :
    PipelineDB × Except RetryError RetryOk :=
  match db.records.find? (fun p => p.id == pid) with
  | none => (db, Except.error RetryError.notFound)
  | some p =>
    if p.processing_status = AIProcessingStatus.FAILED ∨
       p.processing_status = AIProcessingStatus.RETRYING then
      let db1 : PipelineDB :=
        ⟨db.records.map (fun q => if q.id == pid then resetForRetry now q else q),
         db.responses⟩
      match db.responses.find? (fun r => r.id == p.response_id) with
      | none => (db1, Except.error RetryError.sourceUnavailable)
      | some r =>
        if hasattrFileData r then (db1, Except.ok ⟨pid, "retry_initiated"⟩)
        else (db1, Except.error RetryError.sourceUnavailable)
    else (db, Except.error RetryError.invalidState)

/-- World for the exhausted-retries scenario: the extractor fails on
every attempt and audit emission succeeds. -/
def alwaysFailWorld : AttemptWorld :=
  ⟨Except.error "OCR processing failed: engine crash", Except.ok ("", 0), true, true⟩

/-- Fresh record of the exhausted-retries scenario (max_retries 3). -/
def retryScenarioRecord : AIProcessing := createRecord 1 1 5 "text/plain" none 0

/-- World in which extraction, standardization and audit emission all
succeed. -/
def happyWorld : AttemptWorld :=
  ⟨Except.ok "hello world", Except.ok ("hello world", 100), true, true⟩

/-- Same external outcomes as happyWorld except that the completion audit
emission raises; the later emission inside the error handler succeeds. -/
def auditFailWorld : AttemptWorld :=
  ⟨Except.ok "hello world", Except.ok ("hello world", 100), false, true⟩

/-- World of a failing extraction with audit emission behaving as in this
repository, where every emission raises (create_audit_log undefined). -/
def repoFailWorld : AttemptWorld :=
  ⟨Except.error "ExtractionError: invalid utf-8 start byte", Except.ok ("", 0),
   false, false⟩

/-- A Pending processing record, id 7, for submission 4. -/
def pendingRecord7 : AIProcessing := createRecord 7 4 5 "text/plain" none 0

/-- A Failed processing record, id 1, for submission 4, after exhausting
its retries. -/
def failedRecord : AIProcessing :=
  { createRecord 1 4 5 "text/plain" none 0 with
      processing_status := AIProcessingStatus.FAILED
      retry_count := 3
      error_message := some "OCR processing failed: engine crash"
      completed_at := some 9 }

/-- Store holding the failed record, with the owning response row
present. -/
def failedDB : PipelineDB := ⟨[failedRecord], [⟨4⟩]⟩

/-- A Completed processing record, id 2, for submission 5. -/
def completedRecord : AIProcessing :=
  { createRecord 2 5 5 "text/plain" none 0 with
      processing_status := AIProcessingStatus.COMPLETED }

/-- Store holding the completed record and its response row. -/
def completedDB : PipelineDB := ⟨[completedRecord], [⟨5⟩]⟩

/-- A Retrying processing record, id 3, for submission 6. -/
def retryingRecord : AIProcessing :=
  { createRecord 3 6 5 "text/plain" none 0 with
      processing_status := AIProcessingStatus.RETRYING
      retry_count := 1
      error_message := some "OCR processing failed: engine crash" }

/-- Store holding the retrying record, with no response rows at all. -/
def retryingDB : PipelineDB := ⟨[retryingRecord], []⟩

/-- Record one failure away from its retry bound, used to exercise the
Failed branch of the error handler. -/
def nearLimitRecord : AIProcessing :=
  { createRecord 9 9 1 "text/plain" none 0 with
      retry_count := 2
      processing_status := AIProcessingStatus.RETRYING }

/-- C1: for every processing failure handled by _handle_processing_error,
the records retry_count is incremented by one, error_message is set to
the failure reason, and an error_occurred step entry carrying the new
retry count is appended; the resulting status is Retrying exactly when
the incremented count is strictly below max_retries, and otherwise the
status is Failed with completed_at set. -/
theorem c1_handle_processing_error (p : AIProcessing) (e : String) (now : Nat)
    (auditOk : Bool) :
    (handleProcessingError p e now auditOk).1.retry_count = p.retry_count + 1 ∧
    (handleProcessingError p e now auditOk).1.error_message = some e ∧
    (handleProcessingError p e now auditOk).1.processing_steps =
      p.processing_steps ++ [errorOccurredStep now (p.retry_count + 1) e] ∧
    ((handleProcessingError p e now auditOk).1.processing_status =
        AIProcessingStatus.RETRYING ↔ p.retry_count + 1 < p.max_retries) ∧
    (¬ (p.retry_count + 1 < p.max_retries) →
      (handleProcessingError p e now auditOk).1.processing_status =
        AIProcessingStatus.FAILED ∧
      (handleProcessingError p e now auditOk).1.completed_at = some now) := by
  by_cases h : p.retry_count + 1 < p.max_retries <;>
    cases auditOk <;>
    simp [handleProcessingError, auditEmit, h]

/-- C1 witness: on a record whose third failure reaches the bound of
max_retries 3, the handler marks the record Failed with completed_at
set. -/
theorem c1_handle_processing_error_witness :
    ¬ (nearLimitRecord.retry_count + 1 < nearLimitRecord.max_retries) ∧
    (handleProcessingError nearLimitRecord "boom" 5 true).1.processing_status =
      AIProcessingStatus.FAILED ∧
    (handleProcessingError nearLimitRecord "boom" 5 true).1.completed_at = some 5 :=
  ⟨by decide,
   ((c1_handle_processing_error nearLimitRecord "boom" 5 true).2.2.2.2 (by decide)).1,
   ((c1_handle_processing_error nearLimitRecord "boom" 5 true).2.2.2.2 (by decide)).2⟩

/-- C2: with max_retries 3 and an extractor that fails on every attempt,
the retry driver performs exactly three attempts (never a fourth, for
any amount of remaining fuel) and leaves the record Failed with
retry_count 3. -/
theorem c2_retry_bound (k : Nat) :
    (runUntilTerminal (fun _ => alwaysFailWorld) retryScenarioRecord 0 (k + 3)).2 = 3 ∧
    (runUntilTerminal (fun _ => alwaysFailWorld) retryScenarioRecord 0 (k + 3)).1.processing_status =
      AIProcessingStatus.FAILED ∧
    (runUntilTerminal (fun _ => alwaysFailWorld) retryScenarioRecord 0 (k + 3)).1.retry_count = 3 ∧
    (runUntilTerminal (fun _ => alwaysFailWorld) retryScenarioRecord 0 (k + 3)).1.max_retries = 3 := by
  refine ⟨?_, ?_, ?_, ?_⟩ <;> rfl

/-- C3: when a record with status Pending, Processing or Completed exists
for a submission, triggering processing without force_reprocess returns
that records id and lowercased status, stores nothing new, schedules no
background run, and a second identical trigger returns the same id. -/
theorem c3_dedup (records : List AIProcessing) (rid : Nat) (p : AIProcessing)
    (h : findExistingActive records rid = some p) :
    (triggerAIProcessing records rid false).response.processing_id = p.id ∧
    (triggerAIProcessing records rid false).response.status =
      statusLower p.processing_status ∧
    (triggerAIProcessing records rid false).records = records ∧
    (triggerAIProcessing records rid false).scheduled = false ∧
    (triggerAIProcessing (triggerAIProcessing records rid false).records rid
        false).response.processing_id =
      (triggerAIProcessing records rid false).response.processing_id := by
  simp [triggerAIProcessing, h]

/-- C3 witness: with one Pending record of id 7 for submission 4 in the
store, a trigger without force_reprocess returns id 7 and status
pending. -/
theorem c3_dedup_witness :
    findExistingActive [pendingRecord7] 4 = some pendingRecord7 ∧
    (triggerAIProcessing [pendingRecord7] 4 false).response.processing_id = 7 ∧
    (triggerAIProcessing [pendingRecord7] 4 false).response.status = "pending" :=
  ⟨rfl, (c3_dedup [pendingRecord7] 4 pendingRecord7 rfl).1,
   (c3_dedup [pendingRecord7] 4 pendingRecord7 rfl).2.1⟩

/-- C4 counterexample: two runs with identical extraction and
standardization outcomes, differing only in whether the completion audit
emission raises, end with different run outcomes and different record
states (Completed versus Retrying with retry_count 1), so an audit
failure is not swallowed without effect. -/
theorem c4_audit_not_swallowed_counterexample :
    (processResponseContent happyWorld 1 1 11 "text/plain" none 0).2 =
      Except.ok (RunResult.completed 1 "hello world"
        (calculateConfidenceScore "hello world" "hello world" 100)) ∧
    (processResponseContent happyWorld 1 1 11 "text/plain" none 0).1.processing_status =
      AIProcessingStatus.COMPLETED ∧
    (processResponseContent auditFailWorld 1 1 11 "text/plain" none 0).2 =
      Except.ok (RunResult.retrying 1 1 auditEmitFailureMsg) ∧
    (processResponseContent auditFailWorld 1 1 11 "text/plain" none 0).1.processing_status =
      AIProcessingStatus.RETRYING ∧
    (processResponseContent auditFailWorld 1 1 11 "text/plain" none 0).1.retry_count = 1 := by
  refine ⟨?_, ?_, ?_, ?_, ?_⟩ <;> rfl

/-- C4 amended: audit-emission failures are not guarded anywhere. One
raised during the success path is caught by the generic except clause
and diverts the run into the retry transition (the record becomes
Retrying with retry_count 1); one raised inside the error handler
propagates out of the run as an exception. -/
theorem c4_audit_failure_behavior
    (pid rid sz t tok : Nat) (ct e text content : String) (fn : Option String) :
    (processResponseContent ⟨Except.ok text, Except.ok (content, tok), false, true⟩
        pid rid sz ct fn t).2 =
      Except.ok (RunResult.retrying pid 1 auditEmitFailureMsg) ∧
    (processResponseContent ⟨Except.ok text, Except.ok (content, tok), false, true⟩
        pid rid sz ct fn t).1.processing_status = AIProcessingStatus.RETRYING ∧
    (processResponseContent ⟨Except.ok text, Except.ok (content, tok), false, true⟩
        pid rid sz ct fn t).1.retry_count = 1 ∧
    (processResponseContent ⟨Except.error e, Except.ok (content, tok), false, true⟩
        pid rid sz ct fn t).2 = Except.error auditEmitFailureMsg := by
  refine ⟨?_, ?_, ?_, ?_⟩ <;>
    simp [processResponseContent, runAttempt, handleProcessingError, auditEmit,
      createRecord]

/-- C5 counterexample: with an absent declared media type, classification
raises AttributeError instead of returning a modality, even though the
filename extension names a known image type. -/
theorem c5_absent_media_type_counterexample :
    determineInputType none (some "photo.png") = Except.error noneStartswithError :=
  rfl

/-- C5 amended: for every present (string) declared media type and any
filename, classification returns exactly one of the four modalities and
never raises, and returns Text when neither the declared type nor the
filename extension matches any known group. -/
theorem c5_classifier_total_on_present_types (ct : String) (fn : Option String) :
    (∃ t, determineInputType (some ct) fn = Except.ok t) ∧
    (matchesKnownGroup ct fn = false →
      determineInputType (some ct) fn = Except.ok AIInputType.TEXT) := by
  constructor
  · exact ⟨determineInputTypeStr ct fn, rfl⟩
  · intro h
    simp only [determineInputType, Except.ok.injEq]
    cases fn with
    | none =>
      simp only [matchesKnownGroup, Bool.or_eq_false_iff] at h
      obtain ⟨⟨⟨⟨h1, h2⟩, h3⟩, h4⟩, -⟩ := h
      simp at h3
      simp [determineInputTypeStr, h1, h2, h3, h4]
    | some f =>
      simp only [matchesKnownGroup, Bool.or_eq_false_iff, Bool.and_eq_false_iff] at h
      obtain ⟨⟨⟨⟨h1, h2⟩, h3⟩, h4⟩, h5⟩ := h
      simp at h3
      rcases h5 with h6 | ⟨⟨⟨e1, e2⟩, e3⟩, e4⟩
      · simp at h6
        simp [determineInputTypeStr, h1, h2, h3, h4, h6]
      · simp at e1 e2 e3 e4
        simp only [determineInputTypeStr, h1, h2, h4]
        split_ifs <;> simp_all

/-- C5 witness: an unrecognized declared type with an unknown filename
extension matches no group and classifies as Text. -/
theorem c5_classifier_total_witness :
    matchesKnownGroup "application/zip" (some "notes.xyz") = false ∧
    determineInputType (some "application/zip") (some "notes.xyz") =
      Except.ok AIInputType.TEXT :=
  ⟨by decide,
   (c5_classifier_total_on_present_types "application/zip" (some "notes.xyz")).2
     (by decide)⟩

/-- C6: the confidence score computed by _calculate_confidence_score
equals the spec formula (base 0.8, a 0.2 penalty when the output/input
length ratio falls outside [0.5, 2.0], a 0.1 penalty when the token
count exceeds 1500, clamped into [0,1]), and in particular always lies
in [0,1]. -/
theorem c6_confidence_formula_and_range (o s : String) (tok : Nat) :
    calculateConfidenceScore o s tok = confidenceSpec o s tok ∧
    0 ≤ calculateConfidenceScore o s tok ∧
    calculateConfidenceScore o s tok ≤ 1 := by
  refine ⟨?_, ?_, ?_⟩
  · simp only [calculateConfidenceScore, confidenceSpec]
    split_ifs <;> norm_num
  · simp only [calculateConfidenceScore]
    exact le_max_left 0 _
  · simp only [calculateConfidenceScore]
    exact max_le zero_le_one (min_le_left 1 _)

/-- C7: manual retry on a Failed record whose response row exists still
raises the source-unavailable ValueError, because the availability check
tests the nonexistent attribute file_data, and the record has
nonetheless been reset and committed (retry_count 0, status Pending,
error_message, started_at and completed_at cleared, manual-retry step
appended); on a Completed record the call raises the invalid-state
ValueError and leaves the store unchanged. -/
theorem c7_manual_retry_source_check :
    (retryFailedProcessing failedDB 1 5).2 =
      Except.error RetryError.sourceUnavailable ∧
    (retryFailedProcessing failedDB 1 5).1.records =
      [resetForRetry 5 failedRecord] ∧
    (resetForRetry 5 failedRecord).retry_count = 0 ∧
    (resetForRetry 5 failedRecord).processing_status = AIProcessingStatus.PENDING ∧
    (resetForRetry 5 failedRecord).error_message = none ∧
    (resetForRetry 5 failedRecord).started_at = none ∧
    (resetForRetry 5 failedRecord).completed_at = none ∧
    (resetForRetry 5 failedRecord).processing_steps =
      failedRecord.processing_steps ++ [manualRetryStep 5] ∧
    (retryFailedProcessing completedDB 2 5).2 =
      Except.error RetryError.invalidState ∧
    (retryFailedProcessing completedDB 2 5).1.records = completedDB.records := by
  refine ⟨rfl, rfl, rfl, rfl, rfl, rfl, rfl, rfl, rfl, rfl⟩

/-- C8: a failing extraction is caught by the except clause of
process_response_content and converted into the Retrying record state
(retry_count 1, error stored), but with audit emission behaving as in
this repository (always raising AttributeError, create_audit_log being
undefined) the run then raises that error to the scheduling layer
instead of returning a result value. -/
theorem c8_extraction_failure_caught_but_run_raises :
    (processResponseContent repoFailWorld 1 1 4 "text/plain" none 0).1.processing_status =
      AIProcessingStatus.RETRYING ∧
    (processResponseContent repoFailWorld 1 1 4 "text/plain" none 0).1.retry_count = 1 ∧
    (processResponseContent repoFailWorld 1 1 4 "text/plain" none 0).1.error_message =
      some "ExtractionError: invalid utf-8 start byte" ∧
    (processResponseContent repoFailWorld 1 1 4 "text/plain" none 0).2 =
      Except.error auditEmitFailureMsg := by
  refine ⟨rfl, rfl, rfl, rfl⟩

/-- C9 counterexample: a freshly created processing record is Pending
and already has started_at set, so started_at is not unset while the
status is Pending. -/
theorem c9_started_at_counterexample :
    (createRecord 1 1 5 "text/plain" none 0).processing_status =
      AIProcessingStatus.PENDING ∧
    (createRecord 1 1 5 "text/plain" none 0).started_at = some 0 := ⟨rfl, rfl⟩

/-- C9 amended: started_at is set at record creation, while the record
is still Pending; and for runs whose audit emissions succeed,
completed_at is set exactly when the final status is Completed or
Failed, the Failed side witnessed by the exhausted-retries driver run. -/
theorem c9_timestamps (ex : Except String String)
    (oa : Except String (String × Nat)) (pid rid sz t : Nat) (ct : String)
    (fn : Option String) :
    (processResponseContent ⟨ex, oa, true, true⟩ pid rid sz ct fn t).1.started_at =
      some t ∧
    ((processResponseContent ⟨ex, oa, true, true⟩ pid rid sz ct fn t).1.completed_at.isSome =
        true ↔
      ((processResponseContent ⟨ex, oa, true, true⟩ pid rid sz ct fn t).1.processing_status =
          AIProcessingStatus.COMPLETED ∨
       (processResponseContent ⟨ex, oa, true, true⟩ pid rid sz ct fn t).1.processing_status =
          AIProcessingStatus.FAILED)) ∧
    (runUntilTerminal (fun _ => alwaysFailWorld) retryScenarioRecord 0 3).1.processing_status =
      AIProcessingStatus.FAILED ∧
    (runUntilTerminal (fun _ => alwaysFailWorld) retryScenarioRecord 0 3).1.completed_at =
      some 2 := by
  refine ⟨?_, ?_, rfl, rfl⟩ <;>
    cases ex <;> rcases oa with e | ⟨content, tok⟩ <;>
      simp [processResponseContent, runAttempt, handleProcessingError, auditEmit,
        createRecord]

/-- C10: on any Failed or Retrying record, retry_failed_processing
commits the reset (status Pending, retry_count 0, error_message,
started_at and completed_at cleared, manual-retry step appended) and
only then performs the source-availability check, which fails, so the
call raises while the stored record has already left its Failed or
Retrying state. -/
theorem c10_retry_reset_committed_before_source_check (db : PipelineDB)
    (pid now : Nat) (p : AIProcessing)
    (hfind : db.records.find? (fun q => q.id == pid) = some p)
    (hstatus : p.processing_status = AIProcessingStatus.FAILED ∨
               p.processing_status = AIProcessingStatus.RETRYING) :
    (retryFailedProcessing db pid now).2 =
      Except.error RetryError.sourceUnavailable ∧
    (retryFailedProcessing db pid now).1.records =
      db.records.map (fun q => if q.id == pid then resetForRetry now q else q) ∧
    (resetForRetry now p).processing_status = AIProcessingStatus.PENDING ∧
    (resetForRetry now p).retry_count = 0 ∧
    (resetForRetry now p).error_message = none ∧
    (resetForRetry now p).started_at = none ∧
    (resetForRetry now p).completed_at = none ∧
    (resetForRetry now p).processing_steps =
      p.processing_steps ++ [manualRetryStep now] := by
  unfold retryFailedProcessing
  rw [hfind]
  simp only [if_pos hstatus]
  cases hresp : db.responses.find? (fun r => r.id == p.response_id) <;>
    simp [hasattrFileData, resetForRetry]

/-- C10 witness: retrying the Retrying record of id 3, whose response
row is absent, raises source-unavailable while the reset record is
Pending. -/
theorem c10_retry_reset_witness :
    retryingDB.records.find? (fun q => q.id == 3) = some retryingRecord ∧
    retryingRecord.processing_status = AIProcessingStatus.RETRYING ∧
    (retryFailedProcessing retryingDB 3 7).2 =
      Except.error RetryError.sourceUnavailable ∧
    (resetForRetry 7 retryingRecord).processing_status = AIProcessingStatus.PENDING :=
  ⟨rfl, rfl,
   (c10_retry_reset_committed_before_source_check retryingDB 3 7 retryingRecord rfl
     (Or.inr rfl)).1,
   (c10_retry_reset_committed_before_source_check retryingDB 3 7 retryingRecord rfl
     (Or.inr rfl)).2.2.1⟩
